import Mathlib

/-!
Verification of the Video-to-Audio conversion system against its
natural-language specification.

The development shallowly embeds the relevant Python functions:
* `upload` from `src/gateway/authclient/access.py`,
* `start` from `src/converter/convert/to_mp3.py`,
* the notification consumer callback from `src/notification/consumer.py`,
* the token-validation client from `src/gateway/storage/util.py`
  (with its cache helpers `get_cached_token_validation`,
  `cache_token_validation`, `cleanup_expired_cache`) and the variant
  `token` of `src/gateway/auth/validate.py`.

External effects (blob store, broker, remote auth service, filesystem,
clock) are modelled by explicit oracle parameters giving the outcome of
each external call, and by explicit state threaded through the
functions.  Machine times are natural numbers (seconds); status codes
are natural numbers.
-/

/-! ## Conversion worker: `start` of `src/converter/convert/to_mp3.py` -/

/-- A job descriptor as carried in the broker messages.  The upload
coordinator publishes `video_fid`, `mp3_fid = None`, `username`,
`original_filename`, `file_size`, `status = "uploaded"`; the converter
parses the JSON body into exactly these fields and forwards them. -/
structure ConvDescriptor where
  video_fid : String
  mp3_fid : Option String
  username : String
  original_filename : Option String
  file_size : Option Nat
  status : String
deriving DecidableEq, Repr

/-- Outcome of one run of the converter `start`: Python returns `None`
on success, an error string on a handled failure, and lets the
exception propagate when a statement outside the `try` block raises. -/
inductive StartResult where
  | ok
  | err (msg : String)
  | raised
deriving DecidableEq, Repr

/-- Observable state after one run of `start`: whether the scratch
video file (the `NamedTemporaryFile(delete=False)`) still exists,
whether the intermediate mp3 scratch file still exists, which blob ids
written by this run are still in the mp3 store, and which descriptors
were published to the converted (MP3) queue. -/
structure StartState where
  result : StartResult
  tempVideoExists : Bool
  tempMp3Exists : Bool
  mp3Store : List Nat
  published : List ConvDescriptor
deriving DecidableEq, Repr

/-- Shallow embedding of `start(message, fs_videos, fs_mp3s, channel)`.

Oracles: `fetchOk` is true when `fs_videos.get` and the write of the
scratch video file succeed (these run before the `try` block, so on
failure the exception propagates and nothing removes the scratch
file); `convertOk` is the outcome of the ffmpeg run (`ffmpeg.Error`
branch returns "failed to convert video: " with the captured stderr
`convErrText`); `putOk` is the outcome of reading the mp3 file and
`fs_mp3s.put` (a raise lands in the generic `except Exception` branch,
message "failed to process video: " with `procErrText`, at a point
where the mp3 scratch file has not yet been removed); `publishOk` is
the outcome of `channel.basic_publish`.  On publish failure the code
runs the compensating `fs_mp3s.delete(fid)`: this call is not guarded
by its own `try`, so `delOk` is its outcome — when it succeeds the
code returns "failed to publish message" with the result blob
removed, and when it raises (`delErrText` is the `str(e)` of that
exception) the new exception propagates out of the inner handler into
the outer `except Exception`, which returns "failed to process
video: " while the result blob stays in the store.  The `finally`
block removes the scratch video file on every exit of the `try`
block, including that one.  The published message is the parsed input
message with only `mp3_fid` set to `str(fid)`. -/
def start (msg : ConvDescriptor) (fid : Nat)
    (convErrText procErrText delErrText : String)
    (fetchOk convertOk putOk publishOk delOk : Bool) : StartState :=
  if !fetchOk then
    { result := .raised, tempVideoExists := true, tempMp3Exists := false,
      mp3Store := [], published := [] }
  else if !convertOk then
    { result := .err ("failed to convert video: " ++ convErrText),
      tempVideoExists := false, tempMp3Exists := false,
      mp3Store := [], published := [] }
  else if !putOk then
    { result := .err ("failed to process video: " ++ procErrText),
      tempVideoExists := false, tempMp3Exists := true,
      mp3Store := [], published := [] }
  else if !publishOk then
    if delOk then
      { result := .err "failed to publish message",
        tempVideoExists := false, tempMp3Exists := false,
        mp3Store := [], published := [] }
    else
      { result := .err ("failed to process video: " ++ delErrText),
        tempVideoExists := false, tempMp3Exists := false,
        mp3Store := [fid], published := [] }
  else
    { result := .ok, tempVideoExists := false, tempMp3Exists := false,
      mp3Store := [fid],
      published := [{ msg with mp3_fid := some (toString fid) }] }

/-! ## Notification worker: `callback` of `src/notification/consumer.py` -/

/-- Events emitted by one invocation of the notification callback, in
program order. -/
inductive NotifEvent where
  | notify
  | observeDuration
  | incSuccess
  | incError
  | ack
  | nack
deriving DecidableEq, Repr, BEq

/-- Shallow embedding of the consumer callback: it calls
`email.notification(body)` once, observes the duration once, then on a
truthy error increments the error counter and nacks, otherwise
increments the success counter and acks.  `errTruthy` is the
truthiness of the value returned by the notification side effect. -/
def callback (errTruthy : Bool) : List NotifEvent :=
  [NotifEvent.notify, NotifEvent.observeDuration] ++
    (if errTruthy then [NotifEvent.incError, NotifEvent.nack]
     else [NotifEvent.incSuccess, NotifEvent.ack])

/-! ## Upload coordinator: `upload` of `src/gateway/authclient/access.py` -/

/-- Outcome of `fs.put` as seen by `upload`: success with the new blob
id, or one of the three caught exception classes. -/
inductive PutOutcome where
  | ok (fid : Nat)
  | gridfsErr
  | pymongoErr
  | otherErr
deriving DecidableEq, Repr

/-- Outcome of `queue_declare` + `basic_publish` as seen by `upload`:
success, `pika.exceptions.AMQPError`, a JSON encoding failure, or any
other exception.  (In CPython the second and third handlers are
unreachable as written, because evaluating `json.JSONEncodeError`
itself raises `AttributeError`, which is caught by the outermost
`except Exception` handler; that handler also deletes the stored blob
under a guard and also returns a `(message, 500)` pair, so every
theorem below states only what all these routes agree on: some
message with status 500, compensation attempted, nothing published.) -/
inductive PublishOutcome where
  | ok
  | amqpErr
  | jsonErr
  | otherErr
deriving DecidableEq, Repr

/-- The message `upload` publishes to the "video" queue. -/
structure UploadMsg where
  video_fid : String
  mp3_fid : Option String
  username : String
  original_filename : String
  file_size : Option Nat
  status : String
deriving DecidableEq, Repr

/-- Observable outcome of one `upload` call: the returned value
(`none` on success, `some (message, status)` on failure), the blob ids
written by this call that are still in the store when it returns, and
the messages published to the "video" queue. -/
structure UploadOut where
  ret : Option (String × Nat)
  store : List Nat
  published : List UploadMsg
deriving DecidableEq, Repr

/-- Shallow embedding of `upload(file_obj, fs, channel, access)`.

`filePresent` is the truthiness of `file_obj`; `access` is the
username value carried in the access dict (`none` when the dict is
falsy or has no "username" key; the empty string is the falsy string
value).  `putO` and `pubO` are the oracles for the two external calls;
`delOk` tells whether the compensating `fs.delete(fid)` succeeds
(false = it raises; the code guards it with its own `try`, logs, and
still returns the original error, so a failed delete leaves the blob
in the store). -/
def upload (filePresent : Bool) (filename : String) (fileSize : Option Nat)
    (access : Option String) (putO : PutOutcome) (pubO : PublishOutcome)
    (delOk : Bool) : UploadOut :=
  if !filePresent then
    { ret := some ("No file provided", 400), store := [], published := [] }
  else
    match access with
    | none => { ret := some ("Invalid user access data", 400), store := [], published := [] }
    | some u =>
      if u = "" then
        { ret := some ("Invalid user access data", 400), store := [], published := [] }
      else
        match putO with
        | .gridfsErr =>
          { ret := some ("Failed to store file", 500), store := [], published := [] }
        | .pymongoErr =>
          { ret := some ("Database error during upload", 500), store := [], published := [] }
        | .otherErr =>
          { ret := some ("Internal server error during file storage", 500),
            store := [], published := [] }
        | .ok fid =>
          match pubO with
          | .ok =>
            { ret := none, store := [fid],
              published := [{ video_fid := toString fid, mp3_fid := none,
                              username := u, original_filename := filename,
                              file_size := fileSize, status := "uploaded" }] }
          | .amqpErr =>
            { ret := some ("Failed to queue processing job", 500),
              store := if delOk then [] else [fid], published := [] }
          | .jsonErr =>
            { ret := some ("Failed to encode message", 500),
              store := if delOk then [] else [fid], published := [] }
          | .otherErr =>
            { ret := some ("Internal server error during job queuing", 500),
              store := if delOk then [] else [fid], published := [] }

/-! ## Token-validation client: `src/gateway/storage/util.py` -/

/-- Python `str.strip()`: remove leading and trailing whitespace,
computed on the character list so that concrete instances evaluate. -/
def pyStrip (s : String) : String :=
  String.mk (((s.data.dropWhile Char.isWhitespace).reverse.dropWhile Char.isWhitespace).reverse)

/-- Python `str.lower()`. -/
def pyLower (s : String) : String :=
  String.mk (s.data.map Char.toLower)

/-- Python `str.startswith(p)`. -/
def pyStartsWith (s p : String) : Bool :=
  p.data.isPrefixOf s.data

/-- Python slicing `s[n:]` (by characters). -/
def pyDrop (s : String) (n : Nat) : String :=
  String.mk (s.data.drop n)

/-- The in-memory `TOKEN_CACHE`: a map from hashed token to
`(user_data, cached_at)`, modelled as an association list with unique
keys (a Python dict).  Times are seconds as natural numbers. -/
abbrev Cache := List (String × String × Nat)

/-- Removal of a key from the cache (`del TOKEN_CACHE[key]`). -/
def eraseKey (k : String) (c : Cache) : Cache :=
  c.filter (fun e => e.1 != k)

/-- Shallow embedding of `cleanup_expired_cache`: drop every entry
whose age at `now` is at least `dur` (`CACHE_DURATION`). -/
def cleanup_expired_cache (now dur : Nat) (c : Cache) : Cache :=
  c.filter (fun e => decide (now - e.2.2 < dur))

/-- Shallow embedding of `cache_token_validation`: store
`(user_data, now)` under the SHA-256 hash of the token (the dict
assignment replaces any previous entry for that key), then run the
expiry sweep.  The SHA-256 hex digest of `hashlib` is modelled by the
abstract function `hash`. -/
def cache_token_validation (hash : String → String) (tokv data : String)
    (now dur : Nat) (c : Cache) : Cache :=
  cleanup_expired_cache now dur ((hash tokv, data, now) :: eraseKey (hash tokv) c)

/-- Shallow embedding of `get_cached_token_validation`: look up the
hashed token; a fresh entry (age strictly below `dur`) is returned, a
stale one is deleted and the lookup misses.  Returns the data found
and the possibly shrunk cache. -/
def get_cached_token_validation (hash : String → String) (tokv : String)
    (now dur : Nat) (c : Cache) : Option String × Cache :=
  match c.find? (fun e => e.1 == hash tokv) with
  | none => (none, c)
  | some e =>
    if now - e.2.2 < dur then (some e.2.1, c)
    else (none, eraseKey (hash tokv) c)

/-- Outcome of one `requests` call against the auth service, as the
calling code distinguishes them: a response with a status code and
body text, a `Timeout`, a `ConnectionError`, or another
`RequestException`. -/
inductive AttemptOutcome where
  | resp (status : Nat) (text : String)
  | timeout
  | connError
  | reqError
deriving DecidableEq, Repr

/-- Result of one run of `util.token`: the `(user_data, error)` pair
it returns, the cache state afterwards, and how many remote calls were
issued. -/
structure TokenOut where
  result : Option String
  error : Option (String × Nat)
  cache : Cache
  ncalls : Nat
deriving DecidableEq, Repr

/-- The retry loop of `util.token` (`for attempt in range(MAX_RETRIES)`).
`i` is the index of the current attempt, `fuel` the number of loop
iterations left (`MAX_RETRIES - i`); `att i` gives the outcome of the
i-th remote call.  A 200 response strips the body, caches it when
caching is enabled, and succeeds; 401/403/422 are terminal; a 5xx
response, a timeout or a connection error retries while iterations
remain (`attempt < MAX_RETRIES - 1`, i.e. `0 < fuel - 1`) and
otherwise maps to 503/504/503; any other `RequestException` is
terminal with status 500; other status codes return the body (or a
default message) with that status.  Falling out of the loop yields the
fallback `("Token validation failed", 500)`. -/
def validateLoop (hash : String → String) (tokv : String) (now dur : Nat)
    (att : Nat → AttemptOutcome) : Nat → Nat → Cache → TokenOut
  | _, 0, c =>
    { result := none, error := some ("Token validation failed", 500),
      cache := c, ncalls := 0 }
  | i, fuel + 1, c =>
    match att i with
    | .resp s txt =>
      if s = 200 then
        { result := some (pyStrip txt), error := none,
          cache := if 0 < dur then cache_token_validation hash tokv (pyStrip txt) now dur c else c,
          ncalls := 1 }
      else if s = 401 then
        { result := none, error := some ("Invalid or expired token", 401),
          cache := c, ncalls := 1 }
      else if s = 403 then
        { result := none, error := some ("Access forbidden", 403),
          cache := c, ncalls := 1 }
      else if s = 422 then
        { result := none, error := some ("Malformed token", 422),
          cache := c, ncalls := 1 }
      else if 500 ≤ s then
        if 0 < fuel then
          let r := validateLoop hash tokv now dur att (i + 1) fuel c
          { r with ncalls := r.ncalls + 1 }
        else
          { result := none, error := some ("Authentication service unavailable", 503),
            cache := c, ncalls := 1 }
      else
        { result := none,
          error := some ((if txt = "" then "Token validation failed" else txt), s),
          cache := c, ncalls := 1 }
    | .timeout =>
      if 0 < fuel then
        let r := validateLoop hash tokv now dur att (i + 1) fuel c
        { r with ncalls := r.ncalls + 1 }
      else
        { result := none, error := some ("Authentication service timeout", 504),
          cache := c, ncalls := 1 }
    | .connError =>
      if 0 < fuel then
        let r := validateLoop hash tokv now dur att (i + 1) fuel c
        { r with ncalls := r.ncalls + 1 }
      else
        { result := none, error := some ("Authentication service unavailable", 503),
          cache := c, ncalls := 1 }
    | .reqError =>
      { result := none, error := some ("Token validation request failed", 500),
        cache := c, ncalls := 1 }

/-- Shallow embedding of `util.token(request)`.  `configured` is the
presence of `AUTH_SVC_ADDRESS`; `authHeader` the Authorization header
(`none` when absent); `maxRetries` is `MAX_RETRIES`, `dur` is
`CACHE_DURATION`, `now` is the current time and `c` the cache.  A
well-formed request checks the cache first when caching is enabled;
the Python code tests the cached value for truthiness
(`if cached_result:`), so a cached empty string is not served and the
remote loop runs instead. -/
def token (configured : Bool) (maxRetries : Nat) (hash : String → String)
    (authHeader : Option String) (att : Nat → AttemptOutcome)
    (now dur : Nat) (c : Cache) : TokenOut :=
  if !configured then
    { result := none, error := some ("Authentication service not configured", 500),
      cache := c, ncalls := 0 }
  else
    match authHeader with
    | none =>
      { result := none, error := some ("Missing authorization header", 401),
        cache := c, ncalls := 0 }
    | some h =>
      if (pyStrip h) = "" then
        { result := none, error := some ("Invalid authorization header", 401),
          cache := c, ncalls := 0 }
      else
        if 0 < dur then
          match get_cached_token_validation hash (pyStrip h) now dur c with
          | (some data, c2) =>
            if data = "" then validateLoop hash (pyStrip h) now dur att 0 maxRetries c2
            else { result := some data, error := none, cache := c2, ncalls := 0 }
          | (none, c2) => validateLoop hash (pyStrip h) now dur att 0 maxRetries c2
        else
          validateLoop hash (pyStrip h) now dur att 0 maxRetries c

/-! ## Token-validation client: `token` of `src/gateway/auth/validate.py`

The gateway server imports this second, cache-free variant; its retry
loop is the same shape, with a slightly different response mapping
(no 422 case, other statuses collapse to `("Token validation failed",
401)`). -/

/-- Result of one run of `validate.token`: the returned pair and the
number of remote calls issued. -/
structure ValidateOut where
  result : Option String
  error : Option (String × Nat)
  ncalls : Nat
deriving DecidableEq, Repr

/-- The retry loop of `validate.token`, indexed like `validateLoop`. -/
def validateTokenLoop (att : Nat → AttemptOutcome) : Nat → Nat → ValidateOut
  | _, 0 => { result := none, error := some ("Token validation failed", 500), ncalls := 0 }
  | i, fuel + 1 =>
    match att i with
    | .resp s txt =>
      if s = 200 then
        { result := some (pyStrip txt), error := none, ncalls := 1 }
      else if s = 401 then
        { result := none, error := some ("Invalid or expired token", 401), ncalls := 1 }
      else if s = 403 then
        { result := none, error := some ("Access forbidden", 403), ncalls := 1 }
      else if 500 ≤ s then
        if 0 < fuel then
          let r := validateTokenLoop att (i + 1) fuel
          { r with ncalls := r.ncalls + 1 }
        else
          { result := none, error := some ("Authentication service unavailable", 503), ncalls := 1 }
      else
        { result := none, error := some ("Token validation failed", 401), ncalls := 1 }
    | .timeout =>
      if 0 < fuel then
        let r := validateTokenLoop att (i + 1) fuel
        { r with ncalls := r.ncalls + 1 }
      else
        { result := none, error := some ("Authentication service timeout", 504), ncalls := 1 }
    | .connError =>
      if 0 < fuel then
        let r := validateTokenLoop att (i + 1) fuel
        { r with ncalls := r.ncalls + 1 }
      else
        { result := none, error := some ("Authentication service unavailable", 503), ncalls := 1 }
    | .reqError =>
      { result := none, error := some ("Token validation request failed", 500), ncalls := 1 }

/-- Shallow embedding of `validate.token(request)`.  The header value
is tested for truthiness (`if not auth_header`), a `Bearer ` prefix is
stripped case-insensitively, and an empty extracted token is rejected
before any remote call. -/
def validate_token (configured : Bool) (maxRetries : Nat)
    (authHeader : Option String) (att : Nat → AttemptOutcome) : ValidateOut :=
  if !configured then
    { result := none, error := some ("Authentication service not configured", 500), ncalls := 0 }
  else
    match authHeader with
    | none =>
      { result := none, error := some ("Missing authorization header", 401), ncalls := 0 }
    | some h =>
      if h = "" then
        { result := none, error := some ("Missing authorization header", 401), ncalls := 0 }
      else
        let tokv := if pyStartsWith (pyLower h) "bearer " then pyStrip (pyDrop h 7) else (pyStrip h)
        if tokv = "" then
          { result := none, error := some ("Invalid token format", 401), ncalls := 0 }
        else
          validateTokenLoop att 0 maxRetries

/-! ## Lemmas about the token-validation retry loops -/

/-- An attempt outcome the retry loop does not treat as terminal: a
server error (status at least 500), a timeout, or a connection
error. -/
def retriable : AttemptOutcome → Bool
  | .resp s _ => decide (500 ≤ s)
  | .timeout => true
  | .connError => true
  | .reqError => false

theorem validateLoop_all_timeout (hash : String → String) (tokv : String)
    (now dur : Nat) (att : Nat → AttemptOutcome) :
    ∀ fuel i c, (∀ j, j < fuel + 1 → att (i + j) = .timeout) →
      validateLoop hash tokv now dur att i (fuel + 1) c =
        { result := none, error := some ("Authentication service timeout", 504),
          cache := c, ncalls := fuel + 1 } := by
  intro fuel
  induction fuel with
  | zero =>
    intro i c h
    have h0 : att i = .timeout := by simpa using h 0 (by omega)
    simp [validateLoop, h0]
  | succ f ih =>
    intro i c h
    have h0 : att i = .timeout := by simpa using h 0 (by omega)
    have hrec := ih (i + 1) c (fun j hj => by
      have harg : i + 1 + j = i + (j + 1) := by omega
      rw [harg]
      exact h (j + 1) (by omega))
    rw [validateLoop]
    simp [h0, hrec]

theorem validateTokenLoop_all_timeout (att : Nat → AttemptOutcome) :
    ∀ fuel i, (∀ j, j < fuel + 1 → att (i + j) = .timeout) →
      validateTokenLoop att i (fuel + 1) =
        { result := none, error := some ("Authentication service timeout", 504),
          ncalls := fuel + 1 } := by
  intro fuel
  induction fuel with
  | zero =>
    intro i h
    have h0 : att i = .timeout := by simpa using h 0 (by omega)
    simp [validateTokenLoop, h0]
  | succ f ih =>
    intro i h
    have h0 : att i = .timeout := by simpa using h 0 (by omega)
    have hrec := ih (i + 1) (fun j hj => by
      have harg : i + 1 + j = i + (j + 1) := by omega
      rw [harg]
      exact h (j + 1) (by omega))
    rw [validateTokenLoop]
    simp [h0, hrec]

theorem validateLoop_first_terminal_auth (hash : String → String) (tokv : String)
    (now dur : Nat) (att : Nat → AttemptOutcome) (s : Nat) (txt : String)
    (hs : s = 401 ∨ s = 403) :
    ∀ n i fuel c, (∀ j, j < n → retriable (att (i + j)) = true) →
      att (i + n) = .resp s txt → n < fuel →
      validateLoop hash tokv now dur att i fuel c =
        { result := none,
          error := some (if s = 401 then ("Invalid or expired token", 401)
                         else ("Access forbidden", 403)),
          cache := c, ncalls := n + 1 } := by
  intro n
  induction n with
  | zero =>
    intro i fuel c _ hterm hlt
    cases fuel with
    | zero => omega
    | succ f =>
      have h0 : att i = .resp s txt := by simpa using hterm
      rcases hs with h4 | h4 <;> subst h4 <;> simp [validateLoop, h0]
  | succ m ih =>
    intro i fuel c hret hterm hlt
    cases fuel with
    | zero => omega
    | succ f =>
      have hrec := ih (i + 1) f c
        (fun j hj => by
          have harg : i + 1 + j = i + (j + 1) := by omega
          rw [harg]
          exact hret (j + 1) (by omega))
        (by
          have harg : i + 1 + m = i + (m + 1) := by omega
          rw [harg]
          exact hterm)
        (by omega)
      have h0 : retriable (att i) = true := by simpa using hret 0 (by omega)
      cases hatt : att i with
      | resp s0 t0 =>
        rw [hatt] at h0
        have h500 : 500 ≤ s0 := by simpa [retriable] using h0
        have hne200 : ¬(s0 = 200) := by omega
        have hne401 : ¬(s0 = 401) := by omega
        have hne403 : ¬(s0 = 403) := by omega
        have hne422 : ¬(s0 = 422) := by omega
        have hf : 0 < f := by omega
        rw [validateLoop]
        simp [hatt, hne200, hne401, hne403, hne422, h500, hf, hrec]
      | timeout =>
        have hf : 0 < f := by omega
        rw [validateLoop]
        simp [hatt, hf, hrec]
      | connError =>
        have hf : 0 < f := by omega
        rw [validateLoop]
        simp [hatt, hf, hrec]
      | reqError =>
        rw [hatt] at h0
        simp [retriable] at h0

theorem validateTokenLoop_first_terminal_auth (att : Nat → AttemptOutcome)
    (s : Nat) (txt : String) (hs : s = 401 ∨ s = 403) :
    ∀ n i fuel, (∀ j, j < n → retriable (att (i + j)) = true) →
      att (i + n) = .resp s txt → n < fuel →
      validateTokenLoop att i fuel =
        { result := none,
          error := some (if s = 401 then ("Invalid or expired token", 401)
                         else ("Access forbidden", 403)),
          ncalls := n + 1 } := by
  intro n
  induction n with
  | zero =>
    intro i fuel _ hterm hlt
    cases fuel with
    | zero => omega
    | succ f =>
      have h0 : att i = .resp s txt := by simpa using hterm
      rcases hs with h4 | h4 <;> subst h4 <;> simp [validateTokenLoop, h0]
  | succ m ih =>
    intro i fuel hret hterm hlt
    cases fuel with
    | zero => omega
    | succ f =>
      have hrec := ih (i + 1) f
        (fun j hj => by
          have harg : i + 1 + j = i + (j + 1) := by omega
          rw [harg]
          exact hret (j + 1) (by omega))
        (by
          have harg : i + 1 + m = i + (m + 1) := by omega
          rw [harg]
          exact hterm)
        (by omega)
      have h0 : retriable (att i) = true := by simpa using hret 0 (by omega)
      cases hatt : att i with
      | resp s0 t0 =>
        rw [hatt] at h0
        have h500 : 500 ≤ s0 := by simpa [retriable] using h0
        have hne200 : ¬(s0 = 200) := by omega
        have hne401 : ¬(s0 = 401) := by omega
        have hne403 : ¬(s0 = 403) := by omega
        have hf : 0 < f := by omega
        rw [validateTokenLoop]
        simp [hatt, hne200, hne401, hne403, h500, hf, hrec]
      | timeout =>
        have hf : 0 < f := by omega
        rw [validateTokenLoop]
        simp [hatt, hf, hrec]
      | connError =>
        have hf : 0 < f := by omega
        rw [validateTokenLoop]
        simp [hatt, hf, hrec]
      | reqError =>
        rw [hatt] at h0
        simp [retriable] at h0

theorem validateLoop_makes_a_call (hash : String → String) (tokv : String)
    (now dur : Nat) (att : Nat → AttemptOutcome) (i fuel : Nat) (c : Cache) :
    1 ≤ (validateLoop hash tokv now dur att i (fuel + 1) c).ncalls := by
  cases hatt : att i <;> simp [validateLoop, hatt] <;> split_ifs <;> simp

/-- A cache entry with a timestamp other than `now` and the inserted
key cannot be in the cache right after an insert at `now`: the dict
assignment replaces any entry under that key and the new entry is
stamped `now`. -/
theorem not_mem_cache_insert (hash : String → String) (tokv dat txt : String)
    (now dur t : Nat) (ht : t ≠ now) (c : Cache) :
    (hash tokv, dat, t) ∉ cache_token_validation hash tokv txt now dur c := by
  intro hmem
  simp only [cache_token_validation, cleanup_expired_cache, eraseKey, List.mem_filter,
    List.mem_cons] at hmem
  rcases hmem with ⟨h1 | h2, _⟩
  · exact ht (congrArg (fun e => e.2.2) h1)
  · simp at h2

theorem not_mem_eraseKey_self (k dat : String) (t : Nat) (l : Cache) :
    (k, dat, t) ∉ eraseKey k l := by
  intro hm
  rcases List.mem_filter.mp hm with ⟨_, hb⟩
  simp at hb

/-- The retry loop never reintroduces a cache entry whose timestamp is
not `now`: exits either keep the cache or insert a fresh entry. -/
theorem validateLoop_stale_entry_absent (hash : String → String) (tokv dat : String)
    (now dur t : Nat) (att : Nat → AttemptOutcome) (ht : t ≠ now) :
    ∀ fuel i c, (hash tokv, dat, t) ∉ c →
      (hash tokv, dat, t) ∉ (validateLoop hash tokv now dur att i fuel c).cache := by
  intro fuel
  induction fuel with
  | zero =>
    intro i c hc
    simpa [validateLoop] using hc
  | succ f ih =>
    intro i c hc
    cases hatt : att i with
    | resp s txt =>
      rw [validateLoop]
      simp only [hatt]
      split_ifs <;>
        first
          | exact hc
          | exact ih (i + 1) c hc
          | exact not_mem_cache_insert hash tokv dat (pyStrip txt) now dur t ht c
    | timeout =>
      rw [validateLoop]
      simp only [hatt]
      split_ifs <;> first | exact hc | exact ih (i + 1) c hc
    | connError =>
      rw [validateLoop]
      simp only [hatt]
      split_ifs <;> first | exact hc | exact ih (i + 1) c hc
    | reqError =>
      rw [validateLoop]
      simp only [hatt]
      exact hc

/-- Entries in the cache after the retry loop either were already
there, or the loop succeeded via a 200 response (the only branch that
inserts). -/
theorem validateLoop_cache_growth (hash : String → String) (tokv : String)
    (now dur : Nat) (att : Nat → AttemptOutcome) :
    ∀ fuel i c e, e ∈ (validateLoop hash tokv now dur att i fuel c).cache →
      e ∈ c ∨ ((validateLoop hash tokv now dur att i fuel c).error = none ∧
        ∃ j txt, att j = AttemptOutcome.resp 200 txt) := by
  intro fuel
  induction fuel with
  | zero =>
    intro i c e he
    left
    simpa [validateLoop] using he
  | succ f ih =>
    intro i c e he
    cases hatt : att i with
    | resp s txt =>
      rw [validateLoop] at he ⊢
      simp only [hatt] at he ⊢
      by_cases h200 : s = 200
      · simp only [h200, if_pos rfl] at he ⊢
        subst h200
        by_cases hd : 0 < dur
        · simp only [if_pos hd] at he
          simp only [cache_token_validation, cleanup_expired_cache, eraseKey] at he
          rcases List.mem_cons.mp (List.mem_filter.mp he).1 with h1 | h2
          · exact Or.inr ⟨rfl, i, txt, hatt⟩
          · exact Or.inl (List.mem_filter.mp h2).1
        · simp only [if_neg hd] at he
          exact Or.inl he
      · simp only [if_neg h200] at he ⊢
        by_cases h401 : s = 401
        · simp only [if_pos h401] at he ⊢; exact Or.inl he
        · simp only [if_neg h401] at he ⊢
          by_cases h403 : s = 403
          · simp only [if_pos h403] at he ⊢; exact Or.inl he
          · simp only [if_neg h403] at he ⊢
            by_cases h422 : s = 422
            · simp only [if_pos h422] at he ⊢; exact Or.inl he
            · simp only [if_neg h422] at he ⊢
              by_cases h500 : 500 ≤ s
              · simp only [if_pos h500] at he ⊢
                by_cases hf : 0 < f
                · simp only [if_pos hf] at he ⊢
                  exact ih (i + 1) c e he
                · simp only [if_neg hf] at he ⊢; exact Or.inl he
              · simp only [if_neg h500] at he ⊢; exact Or.inl he
    | timeout =>
      rw [validateLoop] at he ⊢
      simp only [hatt] at he ⊢
      by_cases hf : 0 < f
      · simp only [if_pos hf] at he ⊢
        exact ih (i + 1) c e he
      · simp only [if_neg hf] at he ⊢; exact Or.inl he
    | connError =>
      rw [validateLoop] at he ⊢
      simp only [hatt] at he ⊢
      by_cases hf : 0 < f
      · simp only [if_pos hf] at he ⊢
        exact ih (i + 1) c e he
      · simp only [if_neg hf] at he ⊢; exact Or.inl he
    | reqError =>
      rw [validateLoop] at he ⊢
      simp only [hatt] at he ⊢
      exact Or.inl he

/-- A cache lookup never adds entries: it returns the cache unchanged
or with one stale entry removed. -/
theorem get_cached_token_validation_subset (hash : String → String) (tokv : String)
    (now dur : Nat) (c : Cache) (e : String × String × Nat)
    (he : e ∈ (get_cached_token_validation hash tokv now dur c).2) : e ∈ c := by
  rw [get_cached_token_validation] at he
  rcases hf : c.find? (fun x => x.1 == hash tokv) with _ | x
  · rw [hf] at he
    exact he
  · rw [hf] at he
    simp only at he
    split_ifs at he
    · exact he
    · exact (List.mem_filter.mp he).1

/-- The retry loop reduces the token function to, given that the
service is configured, the header carries a non-empty token and the
cache lookup misses (or caching is disabled). -/
theorem token_remote (hash : String → String) (h : String)
    (att : Nat → AttemptOutcome) (now dur : Nat) (c : Cache) (maxRetries : Nat)
    (hh : pyStrip h ≠ "")
    (hmiss : 0 < dur → (get_cached_token_validation hash (pyStrip h) now dur c).1 = none) :
    token true maxRetries hash (some h) att now dur c =
      validateLoop hash (pyStrip h) now dur att 0 maxRetries
        (if 0 < dur then (get_cached_token_validation hash (pyStrip h) now dur c).2
         else c) := by
  by_cases hd : 0 < dur
  · have hm := hmiss hd
    rcases hgc : get_cached_token_validation hash (pyStrip h) now dur c with ⟨r, c2⟩
    rw [hgc] at hm
    simp only at hm
    subst hm
    simp [token, hh, hd, hgc]
  · simp [token, hh, hd]

/-- Right after an insert at time `t`, the inserted entry heads the
cache: it survives the expiry sweep run at the insert itself. -/
theorem cache_insert_head (hash : String → String) (tokv data : String)
    (t d : Nat) (c : Cache) :
    cache_token_validation hash tokv data t (d + 1) c =
      (hash tokv, data, t) ::
        cleanup_expired_cache t (d + 1) (eraseKey (hash tokv) c) := by
  simp [cache_token_validation, cleanup_expired_cache]

/-- A lookup within the freshness window finds the entry inserted at
`t` and leaves the cache unchanged. -/
theorem get_cached_after_insert_fresh (hash : String → String) (tokv data : String)
    (t now d : Nat) (c : Cache) (hfresh : now - t < d + 1) :
    get_cached_token_validation hash tokv now (d + 1)
        (cache_token_validation hash tokv data t (d + 1) c) =
      (some data, cache_token_validation hash tokv data t (d + 1) c) := by
  rw [get_cached_token_validation, cache_insert_head]
  rw [List.find?_cons_of_pos _ (by simp)]
  simp [hfresh, cache_insert_head]

/-- A lookup at or past the end of the freshness window misses and
deletes the entry inserted at `t`. -/
theorem get_cached_after_insert_stale (hash : String → String) (tokv data : String)
    (t now d : Nat) (c : Cache) (hstale : ¬ now - t < d + 1) :
    get_cached_token_validation hash tokv now (d + 1)
        (cache_token_validation hash tokv data t (d + 1) c) =
      (none, eraseKey (hash tokv)
        (cache_token_validation hash tokv data t (d + 1) c)) := by
  rw [get_cached_token_validation, cache_insert_head]
  rw [List.find?_cons_of_pos _ (by simp)]
  simp [hstale, cache_insert_head]

/-- Any entry in the cache after a whole `token` call was either
already present, or the call succeeded through a 200 remote
validation (the only inserting branch). -/
theorem token_cache_growth (configured : Bool) (maxRetries : Nat)
    (hash : String → String) (authHeader : Option String)
    (att : Nat → AttemptOutcome) (now dur : Nat) (c : Cache)
    (e : String × String × Nat)
    (he : e ∈ (token configured maxRetries hash authHeader att now dur c).cache) :
    e ∈ c ∨ ((token configured maxRetries hash authHeader att now dur c).error = none ∧
      ∃ j txt, att j = AttemptOutcome.resp 200 txt) := by
  cases configured with
  | false =>
    left
    simpa [token] using he
  | true =>
    cases authHeader with
    | none =>
      left
      simpa [token] using he
    | some hs =>
      by_cases hhs : pyStrip hs = ""
      · left
        simpa [token, hhs] using he
      · by_cases hd : 0 < dur
        · rcases hgc : get_cached_token_validation hash (pyStrip hs) now dur c with ⟨r, c2⟩
          have hsub : ∀ x : String × String × Nat, x ∈ c2 → x ∈ c := by
            intro x hx
            have hx2 := get_cached_token_validation_subset hash (pyStrip hs) now dur c x
            rw [hgc] at hx2
            exact hx2 hx
          cases r with
          | none =>
            simp only [token, hhs, hd, hgc] at he ⊢
            rcases validateLoop_cache_growth hash (pyStrip hs) now dur att maxRetries 0 c2 e
                (by simpa using he) with h1 | h2
            · exact Or.inl (hsub e h1)
            · right
              simpa using h2
          | some data =>
            by_cases hdat : data = ""
            · simp only [token, hhs, hd, hgc, hdat] at he ⊢
              rcases validateLoop_cache_growth hash (pyStrip hs) now dur att maxRetries 0 c2 e
                  (by simpa using he) with h1 | h2
              · exact Or.inl (hsub e h1)
              · right
                simpa using h2
            · simp only [token, hhs, hd, hgc, hdat] at he ⊢
              left
              exact hsub e (by simpa [hdat] using he)
        · simp only [token, hhs, hd] at he ⊢
          rcases validateLoop_cache_growth hash (pyStrip hs) now dur att maxRetries 0 c e
              (by simpa using he) with h1 | h2
          · exact Or.inl h1
          · right
            simpa using h2

/-! ## Theorems for the conversion worker -/

/-- Counterexample to claim C2: when the publish fails and the
compensating `fs_mp3s.delete(fid)` itself raises, the exception falls
through to the outer handler, `start` still returns an error, but the
result blob is present in the store afterwards — contradicting the
claim that the result blob is absent afterward. -/
theorem C2_counterexample_delete_failure_leaves_result_blob :
    (start ⟨"v1", none, "alice", none, none, "uploaded"⟩ 7 "" "" "boom" true true
        true false false).result = .err ("failed to process video: " ++ "boom") ∧
    (start ⟨"v1", none, "alice", none, none, "uploaded"⟩ 7 "" "" "boom" true true
        true false false).mp3Store = [7] :=
  ⟨rfl, rfl⟩

/-- Claim C2 (amended): in a conversion-worker run where conversion
succeeds, the result blob is stored, and the publish to the converted
(MP3) queue fails, `start` attempts the compensating delete of the
just-stored result blob and returns an error in every case, and no
converted-queue message is published; the result blob is absent
afterward exactly when the compensating delete does not raise, while
a raising delete leaves the result blob stored (an orphan, but one no
published message refers to). -/
theorem C2_publish_failure_compensation (msg : ConvDescriptor) (fid : Nat)
    (convErrText procErrText delErrText : String) (delOk : Bool) :
    start msg fid convErrText procErrText delErrText true true true false delOk =
      { result := .err (if delOk then "failed to publish message"
                        else "failed to process video: " ++ delErrText),
        tempVideoExists := false, tempMp3Exists := false,
        mp3Store := if delOk then [] else [fid], published := [] } := by
  cases delOk <;> rfl

/-- Counterexample to claim C3: on a fully successful run whose
consumed descriptor has status "uploaded", the published descriptor
still has status "uploaded", not "converted" — the code sets only
`mp3_fid` and never rewrites `status`. -/
theorem C3_counterexample_status_not_converted :
    ((start ⟨"v1", none, "alice", none, none, "uploaded"⟩ 7 "" "" "" true true true
        true true).published.map ConvDescriptor.status) = ["uploaded"] ∧
    ("uploaded" : String) ≠ "converted" :=
  ⟨rfl, by decide⟩

/-- Claim C3 (amended): for every successful conversion, the
descriptor published to the converted queue is the consumed descriptor
with `mp3_fid` set to the id of the newly stored result blob; `owner`
(`username`), `source_blob_id` (`video_fid`) — and also `status` —
are carried over unchanged from the consumed descriptor, so the
status remains whatever the consumed descriptor carried ("uploaded"
in this pipeline), not "converted". -/
theorem C3_published_descriptor_fields (msg : ConvDescriptor) (fid : Nat)
    (convErrText procErrText delErrText : String) (delOk : Bool) :
    (start msg fid convErrText procErrText delErrText true true true true
      delOk).published = [{ msg with mp3_fid := some (toString fid) }] ∧
    (start msg fid convErrText procErrText delErrText true true true true
      delOk).result = .ok ∧
    (start msg fid convErrText procErrText delErrText true true true true
      delOk).mp3Store = [fid] :=
  ⟨rfl, rfl, rfl⟩

/-- Counterexample to claim C7: when fetching the source blob (or
writing the scratch file) fails, the scratch video file — already
created by `NamedTemporaryFile(delete=False)` before the `try` block —
is not removed, and the exception propagates out of `start`. -/
theorem C7_counterexample_fetch_failure_leaks_scratch :
    (start ⟨"v1", none, "alice", none, none, "uploaded"⟩ 7 "" "" "" false true true
        true true).tempVideoExists = true ∧
    (start ⟨"v1", none, "alice", none, none, "uploaded"⟩ 7 "" "" "" false true true
        true true).result = .raised :=
  ⟨rfl, rfl⟩

/-- Claim C7 (amended): the scratch video file is removed on every
exit path of the conversion phase (success, conversion failure,
result-store failure, publish failure) — the `finally` block covers
the whole `try` — but not on a failure of the fetch/write of the
scratch file itself, which happens before the `try` block and leaks
the file (see the counterexample). -/
theorem C7_scratch_removed_on_try_exits (msg : ConvDescriptor) (fid : Nat)
    (convErrText procErrText delErrText : String)
    (convertOk putOk publishOk delOk : Bool) :
    (start msg fid convErrText procErrText delErrText true convertOk putOk
        publishOk delOk).tempVideoExists = false := by
  cases convertOk <;> cases putOk <;> cases publishOk <;> cases delOk <;> rfl

/-! ## Theorems for the notification worker -/

/-- Claim C9: each delivered message triggers exactly one notification
attempt and exactly one duration observation; on success exactly one
ack and one success-counter increment, on failure exactly one nack and
one error-counter increment, and never the opposite pair — no local
retry in either case. -/
theorem C9_callback_effects (errTruthy : Bool) :
    (callback errTruthy).count NotifEvent.notify = 1 ∧
    (callback errTruthy).count NotifEvent.observeDuration = 1 ∧
    (callback errTruthy).count NotifEvent.ack = (if errTruthy then 0 else 1) ∧
    (callback errTruthy).count NotifEvent.nack = (if errTruthy then 1 else 0) ∧
    (callback errTruthy).count NotifEvent.incSuccess = (if errTruthy then 0 else 1) ∧
    (callback errTruthy).count NotifEvent.incError = (if errTruthy then 1 else 0) := by
  cases errTruthy <;> decide

/-! ## Theorems for the upload coordinator -/

/-- Counterexample to claim C1: when the publish fails and the
compensating `fs.delete` itself raises, `upload` still returns the
publish error, but the store does hold the blob from this call
afterwards — contradicting the claim that the store holds no blob
from this call even when the compensating delete raises. -/
theorem C1_counterexample_delete_failure_leaves_blob :
    (upload true "f.mp4" none (some "alice") (.ok 7) .amqpErr false).ret =
      some ("Failed to queue processing job", 500) ∧
    (upload true "f.mp4" none (some "alice") (.ok 7) .amqpErr false).store = [7] :=
  ⟨rfl, rfl⟩

/-- Claim C1 (amended): whenever the blob store put succeeds and the
publish fails for any reason, `upload` attempts the compensating
delete and returns a publish error — a non-`none` `(message, 500)`
pair — even when the compensating delete itself raises; the store
holds no blob from this call exactly when the compensating delete did
not raise, and nothing is ever published. -/
theorem C1_publish_failure_compensates (filename : String) (fileSize : Option Nat)
    (u : String) (fid : Nat) (pubO : PublishOutcome) (delOk : Bool)
    (hu : u ≠ "") (hpub : pubO ≠ .ok) :
    (∃ m, (upload true filename fileSize (some u) (.ok fid) pubO delOk).ret =
      some (m, 500)) ∧
    (upload true filename fileSize (some u) (.ok fid) pubO delOk).store =
      (if delOk then [] else [fid]) ∧
    (upload true filename fileSize (some u) (.ok fid) pubO delOk).published = [] := by
  cases pubO with
  | ok => exact absurd rfl hpub
  | amqpErr =>
    exact ⟨⟨"Failed to queue processing job", by simp [upload, hu]⟩,
      by simp [upload, hu], by simp [upload, hu]⟩
  | jsonErr =>
    exact ⟨⟨"Failed to encode message", by simp [upload, hu]⟩,
      by simp [upload, hu], by simp [upload, hu]⟩
  | otherErr =>
    exact ⟨⟨"Internal server error during job queuing", by simp [upload, hu]⟩,
      by simp [upload, hu], by simp [upload, hu]⟩

/-- Witness for claim C1 at a concrete failed publish with a
succeeding compensating delete. -/
theorem C1_publish_failure_compensates_witness :
    (∃ m, (upload true "f.mp4" none (some "alice") (.ok 7) PublishOutcome.amqpErr
      true).ret = some (m, 500)) ∧
    (upload true "f.mp4" none (some "alice") (.ok 7) PublishOutcome.amqpErr
      true).store = (if true then [] else [7]) ∧
    (upload true "f.mp4" none (some "alice") (.ok 7) PublishOutcome.amqpErr
      true).published = [] :=
  C1_publish_failure_compensates "f.mp4" none "alice" 7 .amqpErr true
    (by decide) (by decide)

/-- Claim C10: an upload call with a missing/falsy file object, or a
missing access dict or missing/empty username, returns a 400 error
pair and performs no side effect: the store receives nothing and
nothing is published. -/
theorem C10_upload_validates_before_side_effects :
    (∀ filename fileSize acc putO pubO delOk,
      upload false filename fileSize acc putO pubO delOk =
        { ret := some ("No file provided", 400), store := [], published := [] }) ∧
    (∀ filename fileSize putO pubO delOk,
      upload true filename fileSize none putO pubO delOk =
        { ret := some ("Invalid user access data", 400), store := [], published := [] }) ∧
    (∀ filename fileSize putO pubO delOk,
      upload true filename fileSize (some "") putO pubO delOk =
        { ret := some ("Invalid user access data", 400), store := [], published := [] }) :=
  ⟨fun _ _ _ _ _ _ => rfl, fun _ _ _ _ _ => rfl, fun _ _ _ _ _ => rfl⟩

/-! ## Theorems for the token-validation client -/

/-- Claim C4: when every remote attempt raises a timeout, both
token-validation clients (`util.token` with a cache miss, and
`validate.token`) issue the remote call exactly `MAX_RETRIES` times —
never more — and return `(None, ("Authentication service timeout",
504))`, the timeout outcome distinct from the 503 unavailable
outcome.  `k + 1` is `MAX_RETRIES` (at least one attempt is
configured). -/
theorem C4_timeout_retry_bound (k : Nat) (hash : String → String) (h : String)
    (att : Nat → AttemptOutcome) (now dur : Nat) (c : Cache)
    (hh : pyStrip h ≠ "")
    (hb : pyStartsWith (pyLower h) "bearer " = false)
    (hmiss : 0 < dur → (get_cached_token_validation hash (pyStrip h) now dur c).1 = none)
    (hto : ∀ j, j < k + 1 → att j = AttemptOutcome.timeout) :
    ((token true (k + 1) hash (some h) att now dur c).result = none ∧
     (token true (k + 1) hash (some h) att now dur c).error =
       some ("Authentication service timeout", 504) ∧
     (token true (k + 1) hash (some h) att now dur c).ncalls = k + 1) ∧
    validate_token true (k + 1) (some h) att =
      { result := none, error := some ("Authentication service timeout", 504),
        ncalls := k + 1 } := by
  have hne : h ≠ "" := fun he => hh (by rw [he]; rfl)
  constructor
  · rw [token_remote hash h att now dur c (k + 1) hh hmiss,
      validateLoop_all_timeout hash (pyStrip h) now dur att k 0 _
        (fun j hj => by simpa using hto j hj)]
    exact ⟨rfl, rfl, rfl⟩
  · have hvl := validateTokenLoop_all_timeout att k 0
      (fun j hj => by simpa using hto j hj)
    simp [validate_token, hne, hb, hh, hvl]

/-- Witness for claim C4 with three attempts, all timing out. -/
theorem C4_timeout_retry_bound_witness :
    ((token true (2 + 1) id (some "tok") (fun _ => AttemptOutcome.timeout) 10 300
        []).result = none ∧
     (token true (2 + 1) id (some "tok") (fun _ => AttemptOutcome.timeout) 10 300
        []).error = some ("Authentication service timeout", 504) ∧
     (token true (2 + 1) id (some "tok") (fun _ => AttemptOutcome.timeout) 10 300
        []).ncalls = 2 + 1) ∧
    validate_token true (2 + 1) (some "tok") (fun _ => AttemptOutcome.timeout) =
      { result := none, error := some ("Authentication service timeout", 504),
        ncalls := 2 + 1 } :=
  C4_timeout_retry_bound 2 id "tok" (fun _ => AttemptOutcome.timeout) 10 300 []
    (by decide) (by decide) (fun _ => rfl) (fun _ _ => rfl)

/-- Claim C8: if the attempts before attempt `n` were all retryable
faults (5xx, timeout or connection error) and attempt `n` returns 401
or 403, both clients stop immediately: no further remote attempt is
issued (`n + 1` calls in total, however many retries remain) and the
corresponding terminal pair is returned — `("Invalid or expired
token", 401)` for a 401, `("Access forbidden", 403)` for a 403. -/
theorem C8_auth_failures_are_terminal (k n : Nat) (hash : String → String)
    (h : String) (att : Nat → AttemptOutcome) (now dur : Nat) (c : Cache)
    (s : Nat) (txt : String)
    (hh : pyStrip h ≠ "")
    (hb : pyStartsWith (pyLower h) "bearer " = false)
    (hmiss : 0 < dur → (get_cached_token_validation hash (pyStrip h) now dur c).1 = none)
    (hs : s = 401 ∨ s = 403)
    (hret : ∀ j, j < n → retriable (att j) = true)
    (hterm : att n = AttemptOutcome.resp s txt)
    (hn : n < k + 1) :
    ((token true (k + 1) hash (some h) att now dur c).result = none ∧
     (token true (k + 1) hash (some h) att now dur c).error =
       some (if s = 401 then ("Invalid or expired token", 401)
             else ("Access forbidden", 403)) ∧
     (token true (k + 1) hash (some h) att now dur c).ncalls = n + 1) ∧
    validate_token true (k + 1) (some h) att =
      { result := none,
        error := some (if s = 401 then ("Invalid or expired token", 401)
                       else ("Access forbidden", 403)),
        ncalls := n + 1 } := by
  have hne : h ≠ "" := fun he => hh (by rw [he]; rfl)
  constructor
  · rw [token_remote hash h att now dur c (k + 1) hh hmiss,
      validateLoop_first_terminal_auth hash (pyStrip h) now dur att s txt hs n 0 (k + 1) _
        (fun j hj => by simpa using hret j hj) (by simpa using hterm) hn]
    exact ⟨rfl, rfl, rfl⟩
  · have hvl := validateTokenLoop_first_terminal_auth att s txt hs n 0 (k + 1)
      (fun j hj => by simpa using hret j hj) (by simpa using hterm) hn
    simp [validate_token, hne, hb, hh, hvl]

/-- Witness for claim C8: a timeout followed by a 401, with one
retry still remaining. -/
theorem C8_auth_failures_are_terminal_witness :
    ((token true (2 + 1) id (some "tok")
        (fun j => if j = 0 then AttemptOutcome.timeout else AttemptOutcome.resp 401 "x")
        10 300 []).result = none ∧
     (token true (2 + 1) id (some "tok")
        (fun j => if j = 0 then AttemptOutcome.timeout else AttemptOutcome.resp 401 "x")
        10 300 []).error =
       some (if 401 = 401 then ("Invalid or expired token", 401)
             else ("Access forbidden", 403)) ∧
     (token true (2 + 1) id (some "tok")
        (fun j => if j = 0 then AttemptOutcome.timeout else AttemptOutcome.resp 401 "x")
        10 300 []).ncalls = 1 + 1) ∧
    validate_token true (2 + 1) (some "tok")
        (fun j => if j = 0 then AttemptOutcome.timeout else AttemptOutcome.resp 401 "x") =
      { result := none,
        error := some (if 401 = 401 then ("Invalid or expired token", 401)
                       else ("Access forbidden", 403)),
        ncalls := 1 + 1 } :=
  C8_auth_failures_are_terminal 2 1 id "tok"
    (fun j => if j = 0 then AttemptOutcome.timeout else AttemptOutcome.resp 401 "x")
    10 300 [] 401 "x" (by decide) (by decide) (fun _ => rfl) (Or.inl rfl)
    (fun j hj => by
      have hj0 : j = 0 := by omega
      subst hj0
      rfl)
    rfl (by omega)

/-- Claim C5: a validation result cached at time `t` is served from
the cache, unchanged and with no remote call, by any lookup strictly
before `t + CACHE_DURATION`; a lookup at or after `t + CACHE_DURATION`
does not use the cache: the expired entry is removed and at least one
remote call is made again.  `d + 1` is `CACHE_DURATION` (caching
enabled), `k + 1` is `MAX_RETRIES`, and `data` is the cached claims
(non-empty, as the code re-validates on a falsy cached value). -/
theorem C5_cache_window (hash : String → String) (h data : String)
    (t now d k : Nat) (c : Cache) (att : Nat → AttemptOutcome)
    (hh : pyStrip h ≠ "") (hdata : data ≠ "") :
    (now < t + (d + 1) →
      token true (k + 1) hash (some h) att now (d + 1)
          (cache_token_validation hash (pyStrip h) data t (d + 1) c) =
        { result := some data, error := none,
          cache := cache_token_validation hash (pyStrip h) data t (d + 1) c,
          ncalls := 0 }) ∧
    (t + (d + 1) ≤ now →
      1 ≤ (token true (k + 1) hash (some h) att now (d + 1)
          (cache_token_validation hash (pyStrip h) data t (d + 1) c)).ncalls ∧
      (hash (pyStrip h), data, t) ∉ (token true (k + 1) hash (some h) att now (d + 1)
          (cache_token_validation hash (pyStrip h) data t (d + 1) c)).cache) := by
  constructor
  · intro hnow
    have hfresh : now - t < d + 1 := by omega
    have hg := get_cached_after_insert_fresh hash (pyStrip h) data t now d c hfresh
    simp [token, hh, hg, hdata]
  · intro hnow
    have hstale : ¬ now - t < d + 1 := by omega
    have hg := get_cached_after_insert_stale hash (pyStrip h) data t now d c hstale
    have hmiss : 0 < d + 1 →
        (get_cached_token_validation hash (pyStrip h) now (d + 1)
          (cache_token_validation hash (pyStrip h) data t (d + 1) c)).1 = none := by
      intro _
      rw [hg]
    rw [token_remote hash h att now (d + 1) _ (k + 1) hh hmiss]
    have hcachearg :
        (if 0 < d + 1 then
          (get_cached_token_validation hash (pyStrip h) now (d + 1)
            (cache_token_validation hash (pyStrip h) data t (d + 1) c)).2
         else cache_token_validation hash (pyStrip h) data t (d + 1) c) =
        eraseKey (hash (pyStrip h))
          (cache_token_validation hash (pyStrip h) data t (d + 1) c) := by
      rw [if_pos (Nat.succ_pos d), hg]
    rw [hcachearg]
    refine ⟨validateLoop_makes_a_call hash (pyStrip h) now (d + 1) att 0 k _, ?_⟩
    exact validateLoop_stale_entry_absent hash (pyStrip h) data now (d + 1) t att
      (by omega) (k + 1) 0 _
      (not_mem_eraseKey_self (hash (pyStrip h)) data t _)

/-- Witness for claim C5: an entry cached at time 5 with duration 3 is
served at time 6 and has expired at time 20. -/
theorem C5_cache_window_witness :
    (token true (0 + 1) id (some "tok") (fun _ => AttemptOutcome.timeout) 6 (2 + 1)
        (cache_token_validation id (pyStrip "tok") "D" 5 (2 + 1) []) =
      { result := some "D", error := none,
        cache := cache_token_validation id (pyStrip "tok") "D" 5 (2 + 1) [],
        ncalls := 0 }) ∧
    (1 ≤ (token true (0 + 1) id (some "tok") (fun _ => AttemptOutcome.timeout) 20 (2 + 1)
        (cache_token_validation id (pyStrip "tok") "D" 5 (2 + 1) [])).ncalls ∧
     (id (pyStrip "tok"), "D", 5) ∉
       (token true (0 + 1) id (some "tok") (fun _ => AttemptOutcome.timeout) 20 (2 + 1)
        (cache_token_validation id (pyStrip "tok") "D" 5 (2 + 1) [])).cache) :=
  ⟨(C5_cache_window id "tok" "D" 5 6 2 0 [] (fun _ => AttemptOutcome.timeout)
      (by decide) (by decide)).1 (by omega),
   (C5_cache_window id "tok" "D" 5 20 2 0 [] (fun _ => AttemptOutcome.timeout)
      (by decide) (by decide)).2 (by omega)⟩

/-- Claim C6: invariant of the token cache.  Every insert stores the
entry under the hash of the token (never the raw token) with the
insert timestamp, removes all entries whose age is at least
`CACHE_DURATION` (so no expired entry survives an insert), and adds no
key other than the hashed token; and across a whole `token` call, a
new cache entry can appear only when the call succeeded through a
200 remote validation. -/
theorem C6_cache_invariant :
    (∀ (hash : String → String) (tokv data : String) (now d : Nat) (c : Cache),
      ((hash tokv, data, now) ∈ cache_token_validation hash tokv data now (d + 1) c) ∧
      (∀ e ∈ cache_token_validation hash tokv data now (d + 1) c,
        now - e.2.2 < d + 1) ∧
      (∀ e ∈ cache_token_validation hash tokv data now (d + 1) c,
        e.1 = hash tokv ∨ e ∈ c)) ∧
    (∀ (configured : Bool) (maxRetries : Nat) (hash : String → String)
      (authHeader : Option String) (att : Nat → AttemptOutcome) (now dur : Nat)
      (c : Cache) (e : String × String × Nat),
      e ∈ (token configured maxRetries hash authHeader att now dur c).cache →
      e ∈ c ∨ ((token configured maxRetries hash authHeader att now dur c).error = none ∧
        ∃ j txt, att j = AttemptOutcome.resp 200 txt)) := by
  constructor
  · intro hash tokv data now d c
    refine ⟨?_, ?_, ?_⟩
    · rw [cache_insert_head]
      exact List.mem_cons_self _ _
    · intro e he
      simp only [cache_token_validation, cleanup_expired_cache, eraseKey] at he
      have hb := (List.mem_filter.mp he).2
      simpa using hb
    · intro e he
      simp only [cache_token_validation, cleanup_expired_cache, eraseKey] at he
      have hm := (List.mem_filter.mp he).1
      rcases List.mem_cons.mp hm with h1 | h2
      · left
        rw [h1]
      · right
        exact (List.mem_filter.mp h2).1
  · exact token_cache_growth

/-- Witness for claim C6 at a concrete insert (which keeps the fresh
entry and sweeps an expired one) and a concrete successful `token`
call. -/
theorem C6_cache_invariant_witness :
    ((id "t", "D", 5) ∈ cache_token_validation id "t" "D" 5 (2 + 1) [("o", "X", 0)]) ∧
    (5 - ((id "t", "D", 5) : String × String × Nat).2.2 < 2 + 1) ∧
    (((id "t", "D", 5) : String × String × Nat).1 = id "t" ∨
      (id "t", "D", 5) ∈ [("o", "X", 0)]) ∧
    ((("t", "D", 5) : String × String × Nat) ∈ ([] : Cache) ∨
      ((token true 1 id (some "t") (fun _ => AttemptOutcome.resp 200 "D") 5 3 []).error =
        none ∧
       ∃ (_j : Nat) (txt : String),
         AttemptOutcome.resp 200 "D" = AttemptOutcome.resp 200 txt)) := by
  have hA := C6_cache_invariant.1 id "t" "D" 5 2 [("o", "X", 0)]
  have hmem : ("t", "D", 5) ∈ (token true 1 id (some "t")
      (fun _ => AttemptOutcome.resp 200 "D") 5 3 []).cache := by decide
  exact ⟨hA.1, hA.2.1 _ hA.1, hA.2.2 _ hA.1,
    C6_cache_invariant.2 true 1 id (some "t") (fun _ => AttemptOutcome.resp 200 "D")
      5 3 [] _ hmem⟩
